import Mathlib

/-!
Verification development for a small exposure time calculator (ETC) for the
HAWK-I instrument at Paranal (source: `src/etc.py`).

Shallow embedding conventions:
* Physical quantities (astropy `Quantity` values) are modelled as real numbers
  in the fixed units the source uses: times in seconds, signals in
  electrons/pixel, rates in photons/pixel/second.  The `.to_value` unit strips
  in the source are therefore identities in the model.
* The external photometric flux service `hmbp.for_flux_in_filter` is a black
  box; it is modelled as an explicit function parameter
  `f : String → ℝ → ℝ` taking the band and the magnitude (the instrument and
  observatory arguments of the source call are the fixed class constants, so
  they are absorbed into `f`).
* The mutable per-instance state of the `ETC` class is exactly the three
  observing-condition fields (`seeing`, `airmass`, `moon_illumination`); the
  instrument constants are class-level immutable values, modelled as plain
  definitions.  Methods take the state `st : ObsState` standing for `self`;
  the source methods other than `initialize_observing_conditions` never read
  nor write the three mutable fields.
* Python exceptions are modelled with `Except` (and, for the state-mutating
  initializer, with an explicit result state paired with an optional error,
  where raising leaves the state as it was).
-/

namespace ETC

/-- Mutable per-instance state of the calculator: the three observing
condition fields set by `initialize_observing_conditions`. -/
structure ObsState where
  seeing : ℝ
  airmass : ℝ
  moon_illumination : ℝ

/-- Error taxonomy of the source (`ValueError`s distinguished by their role):
invalid band name, out-of-range moon illumination, non-positive DIT. -/
inductive ETCError where
  | invalidBand (offending : String) (valid : List String)
  | outOfRange (value : ℝ)
  | invalidArgument (msg : String)

/-- `ETC.bands`: the fixed list of supported wavelength bands. -/
def bands : List String :=
  ["Ks", "Y", "J", "H", "CH4", "H2", "NB1060", "NB1190", "NB2090", "BrGamma"]

/-- `ETC.readout_noise = 5 * (u.electron / u.pixel)`. -/
noncomputable def readout_noise : ℝ := 5

/-- `ETC.dark_noise = 0.01 * (u.electron / u.pixel / u.s)`. -/
noncomputable def dark_noise : ℝ := 0.01

/-- `ETC.pixel_scale = 0.1063 ** 2 * (1 / u.pixel)`. -/
noncomputable def pixel_scale : ℝ := 0.1063 ^ 2

/-- `ETC.telescope_size = np.pi * (8 / 2 * u.m) ** 2`. -/
noncomputable def telescope_size : ℝ := Real.pi * (8 / 2) ^ 2

/-- `ETC.quantum_efficiency = 0.8 * (u.electron / u.ph)`. -/
noncomputable def quantum_efficiency : ℝ := 0.8

/-- `ETC.linearity_limit = 100_000 * u.electron / u.pixel`. -/
noncomputable def linearity_limit : ℝ := 100000

/-- `ETC.saturation_limit = 120_000 * u.electron / u.pixel`. -/
noncomputable def saturation_limit : ℝ := 120000

/-- Class-level defaults of the three condition fields
(`seeing = 1 arcsec`, `airmass = 1`, `moon_illumination = 0.5`). -/
noncomputable def defaultObs : ObsState :=
  { seeing := 1, airmass := 1, moon_illumination := 0.5 }

/-- `ETC.photons_in_filter`: validates the band against `bands` (raising a
`ValueError` naming the offending value and the valid list), then scales the
external flux by the telescope area and the pixel scale.  The state `st`
stands for `self`; the source body reads no mutable field of it. -/
noncomputable def photons_in_filter (f : String → ℝ → ℝ) (st : ObsState)
    (band : String) (mag : ℝ) : Except ETCError ℝ :=
  if band ∈ bands then
    Except.ok (f band mag * telescope_size * pixel_scale)
  else
    Except.error (ETCError.invalidBand band bands)

/-- `ETC.initialize_observing_conditions`: validates
`0 <= moon_illumination <= 1`, raising a `ValueError` carrying the offending
value, then overwrites the three condition fields.  The returned state is the
post-call state (unchanged when the error is raised, since the raise happens
before any assignment); the second component is the raised error, if any. -/
noncomputable def initialize_observing_conditions (st : ObsState) (seeing : ℝ)
    (moon_illumination : ℝ) (airmass : ℝ) : ObsState × Option ETCError :=
  if 0 ≤ moon_illumination ∧ moon_illumination ≤ 1 then
    ({ seeing := seeing, airmass := airmass, moon_illumination := moon_illumination },
      none)
  else
    (st, some (ETCError.outOfRange moon_illumination))

/-- The per-exposure signal of `ETC.get_snr`:
`signal = photons * dit * quantum_efficiency`, then clamped to the saturation
limit (`if signal > saturation_limit: signal = saturation_limit`).  The
linearity-limit branch of the source only prints a warning and does not touch
the value. -/
noncomputable def signal_per_exposure (rate : ℝ) (dit : ℝ) : ℝ :=
  if rate * dit * quantum_efficiency > saturation_limit then saturation_limit
  else rate * dit * quantum_efficiency

/-- The accumulated signal of `ETC.get_snr`: `signal *= ndit` applied to the
(possibly clamped) per-exposure signal. -/
noncomputable def signal_total (rate : ℝ) (dit : ℝ) (ndit : ℕ) : ℝ :=
  signal_per_exposure rate dit * ndit

/-- The noise of `ETC.get_snr`:
`readout_noise * ndit + dark_noise * exposure_time + sqrt(signal)` with
`exposure_time = dit * ndit` — a plain linear sum of the three terms. -/
noncomputable def noise_total (rate : ℝ) (dit : ℝ) (ndit : ℕ) : ℝ :=
  readout_noise * ndit + dark_noise * (dit * ndit) +
    Real.sqrt (signal_total rate dit ndit)

/-- The value computed by `ETC.get_snr` once the photon rate is known:
`snr = (signal / noise).to_value(1)`. -/
noncomputable def snr_value (rate : ℝ) (dit : ℝ) (ndit : ℕ) : ℝ :=
  signal_total rate dit ndit / noise_total rate dit ndit

/-- `ETC.get_snr`: looks up the photon rate via `photons_in_filter`
(propagating its error) and computes the signal-to-noise ratio.  The state
`st` stands for `self`; the source body reads no mutable field of it. -/
noncomputable def get_snr (f : String → ℝ → ℝ) (st : ObsState) (band : String)
    (mag : ℝ) (dit : ℝ) (ndit : ℕ) : Except ETCError ℝ :=
  match photons_in_filter f st band mag with
  | Except.error e => Except.error e
  | Except.ok rate => Except.ok (snr_value rate dit ndit)

/-- The search loop of `ETC.get_ndit`: starting from the current `ndit`, it
increments `ndit` by one, recomputes the SNR from scratch, stops immediately
when the cumulative exposure time `ndit * dit` reaches 3 hours (10800 s), and
otherwise keeps going while the SNR is still below the target.  (The 1-hour
branch of the source only prints a warning.) -/
noncomputable def ndit_loop (rate : ℝ) (target : ℝ) (dit : ℝ) (hd : 0 < dit)
    (ndit : ℕ) : ℕ :=
  if h3 : ((ndit + 1 : ℕ) : ℝ) * dit ≥ 3 * 3600 then ndit + 1
  else if snr_value rate dit (ndit + 1) < target then
    ndit_loop rate target dit hd (ndit + 1)
  else ndit + 1
termination_by Nat.ceil ((3 * 3600 : ℝ) / dit) - ndit
decreasing_by
  have hlt : ((ndit + 1 : ℕ) : ℝ) * dit < 3 * 3600 := lt_of_not_le h3
  have hq : ((ndit : ℕ) : ℝ) < (3 * 3600 : ℝ) / dit := by
    have h1 : ((ndit : ℕ) : ℝ) < ((ndit + 1 : ℕ) : ℝ) := by exact_mod_cast Nat.lt_succ_self ndit
    have h2 : ((ndit + 1 : ℕ) : ℝ) < (3 * 3600 : ℝ) / dit :=
      (lt_div_iff₀ hd).mpr hlt
    exact h1.trans h2
  have hc : ndit < Nat.ceil ((3 * 3600 : ℝ) / dit) := Nat.lt_ceil.mpr hq
  exact Nat.sub_lt_sub_left hc (Nat.lt_succ_self ndit)

/-- `ETC.get_ndit`: rejects non-positive `dit` with a `ValueError`, then runs
the linear search.  When the target SNR is not positive the `while` guard
`snr_n < snr` fails immediately on the initial `snr_n = 0` and the initial
`ndit = 0` is returned without any `get_snr` call; otherwise the first
iteration's `get_snr` call validates the band (propagating its error) and the
search proceeds. -/
noncomputable def get_ndit (f : String → ℝ → ℝ) (st : ObsState) (band : String)
    (snr : ℝ) (mag : ℝ) (dit : ℝ) : Except ETCError ℕ :=
  if hd : dit ≤ 0 then Except.error (ETCError.invalidArgument "DIT must be positive")
  else if 0 < snr then
    match photons_in_filter f st band mag with
    | Except.error e => Except.error e
    | Except.ok rate => Except.ok (ndit_loop rate snr dit (lt_of_not_le hd) 0)
  else Except.ok 0

/-- A stub for the external flux service that makes the photon rate produced
by `photons_in_filter` equal exactly `r` ph/pixel/s on every band and
magnitude. -/
noncomputable def fluxConst (r : ℝ) : String → ℝ → ℝ :=
  fun _ _ => r / (telescope_size * pixel_scale)

/-- The public operations of the `ETC` class, as a step alphabet for the
frame/state claims. -/
inductive ETCOp where
  | initObs (seeing moon_illumination airmass : ℝ)
  | photons (band : String) (mag : ℝ)
  | snrOf (band : String) (mag dit : ℝ) (ndit : ℕ)
  | nditOf (band : String) (snr mag dit : ℝ)

/-- Return values of the public operations. -/
inductive ETCValue where
  | unit
  | quantity (x : ℝ)
  | count (n : ℕ)

/-- Big-step semantics of one public method call on one instance: the
post-call state paired with the returned value or raised error.  Only
`initialize_observing_conditions` assigns to `self`; the other three methods
contain no assignment, so their post-state is the pre-state. -/
noncomputable def runOp (f : String → ℝ → ℝ) (op : ETCOp) (st : ObsState) :
    ObsState × Except ETCError ETCValue :=
  match op with
  | ETCOp.initObs s mi a =>
    let r := initialize_observing_conditions st s mi a
    (r.1, match r.2 with
      | none => Except.ok ETCValue.unit
      | some e => Except.error e)
  | ETCOp.photons band mag =>
    (st, Except.map ETCValue.quantity (photons_in_filter f st band mag))
  | ETCOp.snrOf band mag dit ndit =>
    (st, Except.map ETCValue.quantity (get_snr f st band mag dit ndit))
  | ETCOp.nditOf band snr mag dit =>
    (st, Except.map ETCValue.count (get_ndit f st band snr mag dit))

/-- A method call on instance `i` of a family of instances: instance
attributes are per-instance, so only component `i` is rewritten
(assignments in the source write `self.<field>`, never the class). -/
noncomputable def runOpOn (f : String → ℝ → ℝ) (sys : ℕ → ObsState) (i : ℕ)
    (op : ETCOp) : ℕ → ObsState :=
  Function.update sys i (runOp f op (sys i)).1

theorem telescope_size_pos : 0 < telescope_size := by
  unfold telescope_size
  have := Real.pi_pos
  positivity

theorem pixel_scale_pos : 0 < pixel_scale := by
  unfold pixel_scale; norm_num

theorem telescope_pixel_pos : 0 < telescope_size * pixel_scale :=
  mul_pos telescope_size_pos pixel_scale_pos

theorem fluxConst_rate (r : ℝ) (band : String) (mag : ℝ) :
    fluxConst r band mag * telescope_size * pixel_scale = r := by
  unfold fluxConst
  rw [mul_assoc]
  exact div_mul_cancel₀ r (ne_of_gt telescope_pixel_pos)

theorem photons_in_filter_ok (f : String → ℝ → ℝ) (st : ObsState)
    (band : String) (mag : ℝ) (hb : band ∈ bands) :
    photons_in_filter f st band mag =
      Except.ok (f band mag * telescope_size * pixel_scale) := by
  unfold photons_in_filter
  simp [hb]

theorem photons_in_filter_fluxConst (r : ℝ) (st : ObsState) (band : String)
    (mag : ℝ) (hb : band ∈ bands) :
    photons_in_filter (fluxConst r) st band mag = Except.ok r := by
  rw [photons_in_filter_ok _ _ _ _ hb, fluxConst_rate]

theorem get_snr_ok (f : String → ℝ → ℝ) (st : ObsState) (band : String)
    (mag dit : ℝ) (ndit : ℕ) (hb : band ∈ bands) :
    get_snr f st band mag dit ndit =
      Except.ok (snr_value (f band mag * telescope_size * pixel_scale) dit ndit) := by
  unfold get_snr
  rw [photons_in_filter_ok f st band mag hb]

theorem sqrt_le_of_sq (x y : ℝ) (hy : 0 ≤ y) (h : x ≤ y ^ 2) :
    Real.sqrt x ≤ y := by
  calc Real.sqrt x ≤ Real.sqrt (y ^ 2) := Real.sqrt_le_sqrt h
  _ = y := Real.sqrt_sq hy

theorem le_sqrt_of_sq (x y : ℝ) (hx : 0 ≤ x) (h : x ^ 2 ≤ y) :
    x ≤ Real.sqrt y := by
  calc x = Real.sqrt (x ^ 2) := (Real.sqrt_sq hx).symm
  _ ≤ Real.sqrt y := Real.sqrt_le_sqrt h

theorem signal_per_exposure_of_le (rate dit : ℝ)
    (h : rate * dit * quantum_efficiency ≤ saturation_limit) :
    signal_per_exposure rate dit = rate * dit * quantum_efficiency := by
  unfold signal_per_exposure
  rw [if_neg (not_lt.mpr h)]

theorem signal_per_exposure_of_gt (rate dit : ℝ)
    (h : saturation_limit < rate * dit * quantum_efficiency) :
    signal_per_exposure rate dit = saturation_limit := by
  unfold signal_per_exposure
  rw [if_pos h]

theorem signal_per_exposure_le_sat (rate dit : ℝ) :
    signal_per_exposure rate dit ≤ saturation_limit := by
  unfold signal_per_exposure
  split_ifs with h
  · exact le_refl _
  · exact le_of_not_lt h

theorem signal_per_exposure_pos (rate dit : ℝ) (hr : 0 < rate) (hd : 0 < dit) :
    0 < signal_per_exposure rate dit := by
  unfold signal_per_exposure
  split_ifs with h
  · unfold saturation_limit; norm_num
  · have : 0 < quantum_efficiency := by unfold quantum_efficiency; norm_num
    positivity

theorem snr_value_eq (rate dit : ℝ) (ndit : ℕ) :
    snr_value rate dit ndit =
      signal_per_exposure rate dit * ndit /
        (readout_noise * ndit + dark_noise * (dit * ndit) +
          Real.sqrt (signal_per_exposure rate dit * ndit)) := rfl

end ETC

namespace ETC

/-- C6: `photons_in_filter` fails with the invalid-band error (naming the
offending value and listing the valid options) exactly when the band is not
in the supported set; on a supported band it returns the external flux scaled
by the telescope collecting area and the per-pixel solid-angle scale, which
is positive whenever the external flux is positive. -/
theorem photons_in_filter_band_check (f : String → ℝ → ℝ) (st : ObsState)
    (band : String) (mag : ℝ) :
    (band ∉ bands →
      photons_in_filter f st band mag =
        Except.error (ETCError.invalidBand band bands))
    ∧ (band ∈ bands →
        photons_in_filter f st band mag =
          Except.ok (f band mag * telescope_size * pixel_scale)
        ∧ (0 < f band mag → 0 < f band mag * telescope_size * pixel_scale)) := by
  constructor
  · intro hb
    unfold photons_in_filter
    simp [hb]
  · intro hb
    refine ⟨photons_in_filter_ok f st band mag hb, fun hpos => ?_⟩
    exact mul_pos (mul_pos hpos telescope_size_pos) pixel_scale_pos

/-- Witness for C6 at concrete inputs: the unsupported band "A" raises the
invalid-band error, and the supported band "Ks" returns the scaled flux. -/
theorem photons_in_filter_band_check_instance :
    photons_in_filter (fluxConst 1000) defaultObs "A" 20 =
      Except.error (ETCError.invalidBand "A" bands)
    ∧ photons_in_filter (fluxConst 1000) defaultObs "Ks" 20 =
      Except.ok (fluxConst 1000 "Ks" 20 * telescope_size * pixel_scale) := by
  constructor
  · exact (photons_in_filter_band_check (fluxConst 1000) defaultObs "A" 20).1
      (by decide)
  · exact ((photons_in_filter_band_check (fluxConst 1000) defaultObs "Ks" 20).2
      (by decide)).1

/-- C7: `initialize_observing_conditions` raises the out-of-range error
reporting the offending value exactly when `moon_illumination` lies outside
`[0, 1]`; in the error case the state is untouched, and in the success case
exactly the three condition fields are overwritten with the arguments. -/
theorem initialize_observing_conditions_check (st : ObsState) (s mi a : ℝ) :
    ((initialize_observing_conditions st s mi a).2 =
        some (ETCError.outOfRange mi) ↔ ¬(0 ≤ mi ∧ mi ≤ 1))
    ∧ (¬(0 ≤ mi ∧ mi ≤ 1) → (initialize_observing_conditions st s mi a).1 = st)
    ∧ ((0 ≤ mi ∧ mi ≤ 1) →
        initialize_observing_conditions st s mi a =
          ({ seeing := s, airmass := a, moon_illumination := mi }, none)) := by
  unfold initialize_observing_conditions
  by_cases h : 0 ≤ mi ∧ mi ≤ 1 <;> simp [h]

/-- Witness for C7 at concrete inputs: `moon_illumination = 2` leaves the
default state unchanged (and errors), `moon_illumination = 1/2` overwrites
the three fields. -/
theorem initialize_observing_conditions_check_instance :
    (initialize_observing_conditions defaultObs 1 2 1).1 = defaultObs
    ∧ (initialize_observing_conditions defaultObs 1 2 1).2 =
        some (ETCError.outOfRange 2)
    ∧ initialize_observing_conditions defaultObs 1 (1 / 2) 1 =
        ({ seeing := 1, airmass := 1, moon_illumination := 1 / 2 }, none) := by
  refine ⟨(initialize_observing_conditions_check defaultObs 1 2 1).2.1 (by norm_num),
    ?_, (initialize_observing_conditions_check defaultObs 1 (1 / 2) 1).2.2 (by norm_num)⟩
  exact (initialize_observing_conditions_check defaultObs 1 2 1).1.mpr (by norm_num)

/-- C8: the results of `photons_in_filter` and `get_snr` do not depend on the
observing-condition state: two instances whose states differ arbitrarily in
the three condition fields return identical results on identical
arguments. -/
theorem observing_conditions_noninterference (f : String → ℝ → ℝ)
    (st1 st2 : ObsState) (band : String) (mag dit : ℝ) (ndit : ℕ) :
    photons_in_filter f st1 band mag = photons_in_filter f st2 band mag
    ∧ get_snr f st1 band mag dit ndit = get_snr f st2 band mag dit ndit :=
  ⟨rfl, rfl⟩

/-- C10: `photons_in_filter`, `get_snr` and `get_ndit` leave the calculator
state unchanged; `initialize_observing_conditions` either leaves it unchanged
(error case) or replaces exactly the three condition fields with its
arguments; and a call on one instance of a family never changes another
instance's state. -/
theorem state_frame (f : String → ℝ → ℝ) (st : ObsState) (band : String)
    (mag dit snr s mi a : ℝ) (ndit : ℕ) :
    (runOp f (ETCOp.photons band mag) st).1 = st
    ∧ (runOp f (ETCOp.snrOf band mag dit ndit) st).1 = st
    ∧ (runOp f (ETCOp.nditOf band snr mag dit) st).1 = st
    ∧ ((runOp f (ETCOp.initObs s mi a) st).1 = st ∨
        (runOp f (ETCOp.initObs s mi a) st).1 =
          { seeing := s, airmass := a, moon_illumination := mi })
    ∧ (∀ (sys : ℕ → ObsState) (i j : ℕ) (op : ETCOp), j ≠ i →
        runOpOn f sys i op j = sys j) := by
  refine ⟨rfl, rfl, rfl, ?_, ?_⟩
  · unfold runOp initialize_observing_conditions
    by_cases h : 0 ≤ mi ∧ mi ≤ 1 <;> simp [h]
  · intro sys i j op hj
    unfold runOpOn
    exact Function.update_noteq hj _ _

/-- C1 (amended): provided the per-exposure signal
`rate * dit * quantum_efficiency` does not exceed the saturation limit,
`get_snr` accumulates `signal = rate * dit * quantum_efficiency * ndit`,
forms the noise as the plain linear sum
`readout_noise * ndit + dark_noise * (dit * ndit) + sqrt(signal)` (not in
quadrature) and returns `signal / noise` as a dimensionless value. -/
theorem get_snr_formula_unsaturated (f : String → ℝ → ℝ) (st : ObsState)
    (band : String) (mag dit : ℝ) (ndit : ℕ) (hb : band ∈ bands)
    (hdit : 0 < dit) (hndit : 1 ≤ ndit)
    (hsat : f band mag * telescope_size * pixel_scale * dit * quantum_efficiency ≤
      saturation_limit) :
    get_snr f st band mag dit ndit =
      Except.ok
        (f band mag * telescope_size * pixel_scale * dit * quantum_efficiency * ndit /
          (readout_noise * ndit + dark_noise * (dit * ndit) +
            Real.sqrt (f band mag * telescope_size * pixel_scale * dit *
              quantum_efficiency * ndit))) := by
  rw [get_snr_ok f st band mag dit ndit hb, snr_value_eq,
    signal_per_exposure_of_le _ _ hsat]

/-- Witness for C1 (and golden scenario): with the flux service stubbed so
that the photon rate is exactly 1000 ph/pixel/s, `get_snr` at `dit = 10 s`,
`ndit = 1` returns exactly `8000 / (5 + 0.1 + sqrt 8000)`. -/
theorem get_snr_golden_scenario :
    get_snr (fluxConst 1000) defaultObs "Ks" 20 10 1 =
      Except.ok (8000 / (5 + 0.1 + Real.sqrt 8000)) := by
  have h := get_snr_formula_unsaturated (fluxConst 1000) defaultObs "Ks" 20 10 1
    (by decide) (by norm_num) (le_refl 1)
    (by
      rw [fluxConst_rate]
      unfold quantum_efficiency saturation_limit
      norm_num)
  rw [h]
  congr 1
  rw [fluxConst_rate]
  unfold readout_noise dark_noise quantum_efficiency
  norm_num

/-- C1 counterexample: with the flux service stubbed so that the photon rate
is 30000 ph/pixel/s, the per-exposure signal is 240000 electrons/pixel, above the
saturation limit, and the value returned by `get_snr` differs from the
unclamped formula of the claim (the clamp makes it strictly smaller). -/
theorem get_snr_formula_fails_when_saturated :
    get_snr (fluxConst 30000) defaultObs "Ks" 20 10 1 ≠
      Except.ok
        (fluxConst 30000 "Ks" 20 * telescope_size * pixel_scale * 10 *
            quantum_efficiency * (1 : ℕ) /
          (readout_noise * (1 : ℕ) + dark_noise * (10 * (1 : ℕ)) +
            Real.sqrt (fluxConst 30000 "Ks" 20 * telescope_size * pixel_scale *
              10 * quantum_efficiency * (1 : ℕ)))) := by
  have hrate := fluxConst_rate 30000 "Ks" 20
  have hclaim :
      fluxConst 30000 "Ks" 20 * telescope_size * pixel_scale * 10 *
          quantum_efficiency * ((1 : ℕ) : ℝ) = 240000 := by
    rw [hrate]
    unfold quantum_efficiency
    norm_num
  have hactual : get_snr (fluxConst 30000) defaultObs "Ks" 20 10 1 =
      Except.ok (120000 / (5.1 + Real.sqrt 120000)) := by
    rw [get_snr_ok (fluxConst 30000) defaultObs "Ks" 20 10 1 (by decide),
      snr_value_eq, hrate,
      signal_per_exposure_of_gt 30000 10
        (by unfold quantum_efficiency saturation_limit; norm_num)]
    unfold saturation_limit readout_noise dark_noise
    norm_num
  have hclaimval :
      fluxConst 30000 "Ks" 20 * telescope_size * pixel_scale * 10 *
          quantum_efficiency * ((1 : ℕ) : ℝ) /
        (readout_noise * ((1 : ℕ) : ℝ) + dark_noise * (10 * ((1 : ℕ) : ℝ)) +
          Real.sqrt (fluxConst 30000 "Ks" 20 * telescope_size * pixel_scale *
            10 * quantum_efficiency * ((1 : ℕ) : ℝ))) =
      240000 / (5.1 + Real.sqrt 240000) := by
    rw [hclaim]
    unfold readout_noise dark_noise
    norm_num
  rw [hactual, hclaimval]
  have h1' : (346 : ℝ) ≤ Real.sqrt 120000 := le_sqrt_of_sq _ _ (by norm_num) (by norm_num)
  have h2 : Real.sqrt 240000 ≤ 490 := sqrt_le_of_sq _ _ (by norm_num) (by norm_num)
  have h2' : (0 : ℝ) ≤ Real.sqrt 240000 := Real.sqrt_nonneg _
  have hlt : (120000 : ℝ) / (5.1 + Real.sqrt 120000) <
      240000 / (5.1 + Real.sqrt 240000) := by
    have hb1 : (0 : ℝ) < 5.1 + Real.sqrt 120000 := by linarith
    have hb2 : (0 : ℝ) < 5.1 + Real.sqrt 240000 := by linarith
    rw [div_lt_div_iff₀ hb1 hb2]
    nlinarith
  intro hcontra
  rw [Except.ok.injEq] at hcontra
  exact (ne_of_lt hlt) hcontra

/-- C3: the per-exposure signal entering the SNR computation is never above
the saturation limit, and when the raw per-exposure signal
`rate * dit * quantum_efficiency` exceeds the limit, `get_snr` computes the
accumulated signal, the photon noise, the total noise and the SNR from the
clamped per-exposure value `saturation_limit` (the clamp applied before the
multiplication by `ndit`). -/
theorem get_snr_saturation_clamp (f : String → ℝ → ℝ) (st : ObsState)
    (band : String) (mag dit : ℝ) (ndit : ℕ) (hb : band ∈ bands)
    (hsat : saturation_limit <
      f band mag * telescope_size * pixel_scale * dit * quantum_efficiency) :
    signal_per_exposure (f band mag * telescope_size * pixel_scale) dit ≤
      saturation_limit
    ∧ get_snr f st band mag dit ndit =
        Except.ok (saturation_limit * ndit /
          (readout_noise * ndit + dark_noise * (dit * ndit) +
            Real.sqrt (saturation_limit * ndit))) := by
  refine ⟨signal_per_exposure_le_sat _ _, ?_⟩
  rw [get_snr_ok f st band mag dit ndit hb, snr_value_eq,
    signal_per_exposure_of_gt _ _ hsat]

/-- Witness for C3: with photon rate stubbed to 30000 ph/pixel/s and
`dit = 10 s` the per-exposure signal 240000 electrons/pixel is clamped, and
`get_snr` at `ndit = 2` is computed from the clamped per-exposure value. -/
theorem get_snr_saturation_clamp_instance :
    signal_per_exposure (fluxConst 30000 "Ks" 20 * telescope_size * pixel_scale)
      10 ≤ saturation_limit
    ∧ get_snr (fluxConst 30000) defaultObs "Ks" 20 10 2 =
        Except.ok (saturation_limit * (2 : ℕ) /
          (readout_noise * (2 : ℕ) + dark_noise * (10 * (2 : ℕ)) +
            Real.sqrt (saturation_limit * (2 : ℕ)))) :=
  get_snr_saturation_clamp (fluxConst 30000) defaultObs "Ks" 20 10 2 (by decide)
    (by
      rw [fluxConst_rate]
      unfold quantum_efficiency saturation_limit
      norm_num)

/-- C9: for a supported band, positive external flux, positive `dit` and
`ndit ≥ 1`, the noise denominator of `get_snr` is strictly positive (the
readout term alone contributes `5 * ndit`), the division is well defined, and
the returned SNR is strictly positive. -/
theorem get_snr_noise_positive (f : String → ℝ → ℝ) (st : ObsState)
    (band : String) (mag dit : ℝ) (ndit : ℕ) (hb : band ∈ bands)
    (hf : 0 < f band mag) (hd : 0 < dit) (hn : 1 ≤ ndit) :
    0 < noise_total (f band mag * telescope_size * pixel_scale) dit ndit
    ∧ get_snr f st band mag dit ndit =
        Except.ok (snr_value (f band mag * telescope_size * pixel_scale) dit ndit)
    ∧ 0 < snr_value (f band mag * telescope_size * pixel_scale) dit ndit := by
  have hrate : 0 < f band mag * telescope_size * pixel_scale :=
    mul_pos (mul_pos hf telescope_size_pos) pixel_scale_pos
  have hn1 : (1 : ℝ) ≤ (ndit : ℝ) := by exact_mod_cast hn
  have hspe : 0 < signal_per_exposure (f band mag * telescope_size * pixel_scale) dit :=
    signal_per_exposure_pos _ _ hrate hd
  have hsig : 0 < signal_per_exposure (f band mag * telescope_size * pixel_scale) dit *
      (ndit : ℝ) := mul_pos hspe (by linarith)
  have hnoise : 0 < noise_total (f band mag * telescope_size * pixel_scale) dit ndit := by
    unfold noise_total
    have hro : readout_noise = 5 := rfl
    have hdk : dark_noise = 0.01 := rfl
    have hs := Real.sqrt_nonneg
      (signal_total (f band mag * telescope_size * pixel_scale) dit ndit)
    rw [hro, hdk]
    nlinarith
  refine ⟨hnoise, get_snr_ok f st band mag dit ndit hb, ?_⟩
  unfold snr_value
  exact div_pos hsig hnoise

/-- Witness for C9 at concrete inputs (stubbed rate 1000 ph/pixel/s, band
"Ks", `dit = 10`, `ndit = 10`): the noise is positive and the SNR is
positive. -/
theorem get_snr_noise_positive_instance :
    0 < noise_total (fluxConst 1000 "Ks" 20 * telescope_size * pixel_scale) 10 10
    ∧ get_snr (fluxConst 1000) defaultObs "Ks" 20 10 10 =
        Except.ok (snr_value (fluxConst 1000 "Ks" 20 * telescope_size * pixel_scale) 10 10)
    ∧ 0 < snr_value (fluxConst 1000 "Ks" 20 * telescope_size * pixel_scale) 10 10 :=
  get_snr_noise_positive (fluxConst 1000) defaultObs "Ks" 20 10 10 (by decide)
    (by
      unfold fluxConst
      exact div_pos (by norm_num) telescope_pixel_pos)
    (by norm_num) (by norm_num)

/-- Witness for C10 at concrete inputs: a `photons_in_filter` call leaves the
default state unchanged, and a call on instance 0 of a two-instance family
leaves instance 1 unchanged. -/
theorem state_frame_instance :
    (runOp (fluxConst 1000) (ETCOp.photons "Ks" 20) defaultObs).1 = defaultObs
    ∧ runOpOn (fluxConst 1000) (fun _ => defaultObs) 0 (ETCOp.photons "Ks" 20) 1 =
        defaultObs := by
  refine ⟨(state_frame (fluxConst 1000) defaultObs "Ks" 20 10 7 1 (1 / 2) 1 1).1, ?_⟩
  exact (state_frame (fluxConst 1000) defaultObs "Ks" 20 10 7 1 (1 / 2) 1 1).2.2.2.2
    (fun _ => defaultObs) 0 1 (ETCOp.photons "Ks" 20) (by norm_num)

theorem snr_value_mono (rate dit : ℝ) (hr : 0 < rate) (hd : 0 < dit)
    (m n : ℕ) (hm : 1 ≤ m) (hmn : m ≤ n) :
    snr_value rate dit m ≤ snr_value rate dit n := by
  have hS : 0 < signal_per_exposure rate dit :=
    signal_per_exposure_pos rate dit hr hd
  have ha1 : (1 : ℝ) ≤ (m : ℝ) := by exact_mod_cast hm
  have hab : (m : ℝ) ≤ (n : ℝ) := by exact_mod_cast hmn
  have ha0 : (0 : ℝ) ≤ (m : ℝ) := by linarith
  have hb0 : (0 : ℝ) ≤ (n : ℝ) := by linarith
  simp only [snr_value_eq]
  set S := signal_per_exposure rate dit with hS_def
  have hnoise : ∀ k : ℕ, readout_noise * (k : ℝ) + dark_noise * (dit * (k : ℝ)) +
      Real.sqrt (S * (k : ℝ)) =
      (readout_noise + dark_noise * dit) * (k : ℝ) + Real.sqrt (S * (k : ℝ)) := by
    intro k; ring
  rw [hnoise m, hnoise n]
  set c := readout_noise + dark_noise * dit with hc_def
  have hc : 0 < c := by
    have h5 : readout_noise = 5 := rfl
    have h01 : dark_noise = 0.01 := rfl
    rw [hc_def, h5, h01]; linarith
  have hs_m : (0 : ℝ) ≤ Real.sqrt (S * (m : ℝ)) := Real.sqrt_nonneg _
  have hs_n : (0 : ℝ) ≤ Real.sqrt (S * (n : ℝ)) := Real.sqrt_nonneg _
  have hd1 : 0 < c * (m : ℝ) + Real.sqrt (S * (m : ℝ)) := by nlinarith
  have hd2 : 0 < c * (n : ℝ) + Real.sqrt (S * (n : ℝ)) := by nlinarith
  rw [div_le_div_iff hd1 hd2]
  have key : (m : ℝ) * Real.sqrt (S * (n : ℝ)) ≤
      (n : ℝ) * Real.sqrt (S * (m : ℝ)) := by
    have e1 : (m : ℝ) * Real.sqrt (S * (n : ℝ)) =
        Real.sqrt ((m : ℝ) ^ 2 * (S * (n : ℝ))) := by
      rw [Real.sqrt_mul (sq_nonneg _), Real.sqrt_sq ha0]
    have e2 : (n : ℝ) * Real.sqrt (S * (m : ℝ)) =
        Real.sqrt ((n : ℝ) ^ 2 * (S * (m : ℝ))) := by
      rw [Real.sqrt_mul (sq_nonneg _), Real.sqrt_sq hb0]
    rw [e1, e2]
    apply Real.sqrt_le_sqrt
    have key0 : S * (m : ℝ) * (n : ℝ) * (m : ℝ) ≤ S * (m : ℝ) * (n : ℝ) * (n : ℝ) :=
      mul_le_mul_of_nonneg_left hab
        (mul_nonneg (mul_nonneg hS.le ha0) hb0)
    nlinarith [key0]
  have key2 : S * ((m : ℝ) * Real.sqrt (S * (n : ℝ))) ≤
      S * ((n : ℝ) * Real.sqrt (S * (m : ℝ))) :=
    mul_le_mul_of_nonneg_left key hS.le
  nlinarith [key2]

/-- C5: holding band, magnitude and `dit` fixed — with the band supported,
the external flux positive and `dit > 0` — `get_snr` is non-decreasing in
`ndit`: the (possibly clamped) per-exposure signal does not depend on `ndit`,
so the SNR only grows with the exposure count. -/
theorem get_snr_monotone_ndit (f : String → ℝ → ℝ) (st : ObsState)
    (band : String) (mag dit : ℝ) (m n : ℕ) (hb : band ∈ bands)
    (hf : 0 < f band mag) (hd : 0 < dit) (hm : 1 ≤ m) (hmn : m ≤ n) :
    get_snr f st band mag dit m =
      Except.ok (snr_value (f band mag * telescope_size * pixel_scale) dit m)
    ∧ get_snr f st band mag dit n =
      Except.ok (snr_value (f band mag * telescope_size * pixel_scale) dit n)
    ∧ snr_value (f band mag * telescope_size * pixel_scale) dit m ≤
        snr_value (f band mag * telescope_size * pixel_scale) dit n :=
  ⟨get_snr_ok f st band mag dit m hb, get_snr_ok f st band mag dit n hb,
    snr_value_mono _ dit (mul_pos (mul_pos hf telescope_size_pos) pixel_scale_pos)
      hd m n hm hmn⟩

/-- Witness for C5 at concrete inputs (stubbed rate 1000 ph/pixel/s,
`dit = 10`): the SNR at `ndit = 1` is at most the SNR at `ndit = 2`. -/
theorem get_snr_monotone_ndit_instance :
    snr_value (fluxConst 1000 "Ks" 20 * telescope_size * pixel_scale) 10 1 ≤
      snr_value (fluxConst 1000 "Ks" 20 * telescope_size * pixel_scale) 10 2 :=
  (get_snr_monotone_ndit (fluxConst 1000) defaultObs "Ks" 20 10 1 2 (by decide)
    (by
      unfold fluxConst
      exact div_pos (by norm_num) telescope_pixel_pos)
    (by norm_num) (by norm_num) (by norm_num)).2.2

theorem ndit_loop_invariant (rate target dit : ℝ) (hd : 0 < dit) :
    ∀ k ndit, Nat.ceil ((3 * 3600 : ℝ) / dit) - ndit ≤ k →
      ndit < ndit_loop rate target dit hd ndit
      ∧ (target ≤ snr_value rate dit (ndit_loop rate target dit hd ndit)
          ∨ ((ndit_loop rate target dit hd ndit : ℝ) * dit ≥ 3 * 3600))
      ∧ ∀ m, ndit < m → m < ndit_loop rate target dit hd ndit →
          snr_value rate dit m < target ∧ (m : ℝ) * dit < 3 * 3600 := by
  intro k
  induction k with
  | zero =>
    intro ndit h0
    have hceil : Nat.ceil ((3 * 3600 : ℝ) / dit) ≤ ndit :=
      Nat.sub_eq_zero_iff_le.mp (Nat.le_zero.mp h0)
    have hge : (3 * 3600 : ℝ) / dit ≤ (ndit : ℝ) :=
      le_trans (Nat.le_ceil _) (by exact_mod_cast hceil)
    have h3 : ((ndit + 1 : ℕ) : ℝ) * dit ≥ 3 * 3600 := by
      have h1 : (3 * 3600 : ℝ) ≤ (ndit : ℝ) * dit := (div_le_iff₀ hd).mp hge
      have h2 : ((ndit : ℕ) : ℝ) * dit ≤ ((ndit + 1 : ℕ) : ℝ) * dit := by
        push_cast
        nlinarith
      linarith
    rw [ndit_loop, dif_pos h3]
    refine ⟨Nat.lt_succ_self ndit, Or.inr h3, ?_⟩
    intro m hm1 hm2
    omega
  | succ k ih =>
    intro ndit hk
    rw [ndit_loop]
    by_cases h3 : ((ndit + 1 : ℕ) : ℝ) * dit ≥ 3 * 3600
    · rw [dif_pos h3]
      refine ⟨Nat.lt_succ_self ndit, Or.inr h3, ?_⟩
      intro m hm1 hm2
      omega
    · rw [dif_neg h3]
      by_cases hs : snr_value rate dit (ndit + 1) < target
      · rw [if_pos hs]
        have hk' : Nat.ceil ((3 * 3600 : ℝ) / dit) - (ndit + 1) ≤ k := by omega
        obtain ⟨ih1, ih2, ih3⟩ := ih (ndit + 1) hk'
        refine ⟨lt_trans (Nat.lt_succ_self ndit) ih1, ih2, ?_⟩
        intro m hm1 hm2
        rcases eq_or_lt_of_le (Nat.succ_le_of_lt hm1) with heq | hlt
        · have heq' : ndit + 1 = m := heq
          constructor
          · rw [← heq']
            exact hs
          · have hlt3 := lt_of_not_ge h3
            rw [heq'] at hlt3
            exact hlt3
        · exact ih3 m hlt hm2
      · rw [if_neg hs]
        refine ⟨Nat.lt_succ_self ndit, Or.inl (not_lt.mp hs), ?_⟩
        intro m hm1 hm2
        omega

/-- C2 counterexample: with target SNR 0 (although `dit = 10 > 0` and the
band "Ks" is supported) the `while` guard `snr_n < snr` fails immediately on
the initial `snr_n = 0`, and `get_ndit` returns 0 — not a positive exposure
count, and reached without any SNR evaluation. -/
theorem get_ndit_zero_target_returns_zero :
    get_ndit (fluxConst 1000) defaultObs "Ks" 0 20 10 = Except.ok 0 := by
  unfold get_ndit
  rw [dif_neg (by norm_num : ¬(10 : ℝ) ≤ 0), if_neg (lt_irrefl 0)]

/-- C2 (amended): `get_ndit` with `dit ≤ 0` fails with the invalid-argument
error; with `dit > 0`, a strictly positive target SNR and a supported band,
the linear search returns a positive `n` whose SNR reaches the target or
whose cumulative exposure time has reached/crossed 3 hours, and every
exposure count the search passed through before `n` had its SNR below the
target and its cumulative time below 3 hours. -/
theorem get_ndit_search_correct (f : String → ℝ → ℝ) (st : ObsState)
    (band : String) (target mag dit : ℝ) :
    (dit ≤ 0 →
      get_ndit f st band target mag dit =
        Except.error (ETCError.invalidArgument "DIT must be positive"))
    ∧ (0 < dit → 0 < target → band ∈ bands →
        ∃ n, get_ndit f st band target mag dit = Except.ok n
          ∧ 0 < n
          ∧ ((∃ s, get_snr f st band mag dit n = Except.ok s ∧ target ≤ s)
              ∨ ((n : ℝ) * dit ≥ 3 * 3600))
          ∧ ∀ m, 1 ≤ m → m < n →
              ∀ s, get_snr f st band mag dit m = Except.ok s →
                s < target ∧ (m : ℝ) * dit < 3 * 3600) := by
  constructor
  · intro hle
    unfold get_ndit
    rw [dif_pos hle]
  · intro hd ht hb
    have hrate := photons_in_filter_ok f st band mag hb
    obtain ⟨inv1, inv2, inv3⟩ :=
      ndit_loop_invariant (f band mag * telescope_size * pixel_scale) target dit
        hd (Nat.ceil ((3 * 3600 : ℝ) / dit)) 0 (by simp)
    refine ⟨ndit_loop (f band mag * telescope_size * pixel_scale) target dit hd 0,
      ?_, inv1, ?_, ?_⟩
    · unfold get_ndit
      rw [dif_neg (not_le.mpr hd), if_pos ht, hrate]
    · rcases inv2 with h | h
      · exact Or.inl ⟨_, get_snr_ok f st band mag dit _ hb, h⟩
      · exact Or.inr h
    · intro m hm1 hm2 s hsnr
      obtain ⟨hlt, htime⟩ := inv3 m hm1 hm2
      rw [get_snr_ok f st band mag dit m hb] at hsnr
      have hseq := Except.ok.inj hsnr
      exact ⟨hseq ▸ hlt, htime⟩

/-- Witness for C2 at concrete inputs: `dit = -1` raises the
invalid-argument error, and with target SNR 7, stubbed rate 1000 ph/pixel/s
and `dit = 10` the search returns a positive exposure count. -/
theorem get_ndit_search_correct_instance :
    get_ndit (fluxConst 1000) defaultObs "Ks" 7 20 (-1) =
      Except.error (ETCError.invalidArgument "DIT must be positive")
    ∧ ∃ n, get_ndit (fluxConst 1000) defaultObs "Ks" 7 20 10 = Except.ok n
        ∧ 0 < n := by
  refine ⟨(get_ndit_search_correct (fluxConst 1000) defaultObs "Ks" 7 20 (-1)).1
    (by norm_num), ?_⟩
  obtain ⟨n, h1, h2, -, -⟩ :=
    (get_ndit_search_correct (fluxConst 1000) defaultObs "Ks" 7 20 10).2
      (by norm_num) (by norm_num) (by decide)
  exact ⟨n, h1, h2⟩

/-- C4: for every `dit > 0` (and any band, magnitude and target SNR,
reachable or not) the search of `get_ndit` stops after at most
`⌈3 hours / dit⌉` iterations: since the loop increments the exposure count by
one per iteration starting from zero, the returned count is at most
`⌈10800 s / dit⌉`. -/
theorem get_ndit_iteration_bound (f : String → ℝ → ℝ) (st : ObsState)
    (band : String) (target mag dit : ℝ) (hd : 0 < dit) :
    ∀ n, get_ndit f st band target mag dit = Except.ok n →
      n ≤ Nat.ceil ((3 * 3600 : ℝ) / dit) := by
  intro n hn
  unfold get_ndit at hn
  rw [dif_neg (not_le.mpr hd)] at hn
  by_cases ht : 0 < target
  · rw [if_pos ht] at hn
    cases hph : photons_in_filter f st band mag with
    | error e =>
      rw [hph] at hn
      exact absurd hn (by simp)
    | ok rate =>
      rw [hph] at hn
      have hn' : Except.ok (ε := ETCError)
          (ndit_loop rate target dit hd 0) = Except.ok n := hn
      have heq := Except.ok.inj hn'
      obtain ⟨inv1, -, inv3⟩ :=
        ndit_loop_invariant rate target dit hd (Nat.ceil ((3 * 3600 : ℝ) / dit))
          0 (by simp)
      rw [heq] at inv1 inv3
      have hceil1 : 1 ≤ Nat.ceil ((3 * 3600 : ℝ) / dit) :=
        Nat.one_le_iff_ne_zero.mpr (Nat.pos_iff_ne_zero.mp
          (Nat.ceil_pos.mpr (div_pos (by norm_num) hd)))
      rcases Nat.lt_or_ge n 2 with h2 | h2
      · omega
      · have hm := inv3 (n - 1) (by omega) (by omega)
        have htime := hm.2
        have hq : ((n - 1 : ℕ) : ℝ) < (3 * 3600 : ℝ) / dit :=
          (lt_div_iff₀ hd).mpr htime
        have : n - 1 < Nat.ceil ((3 * 3600 : ℝ) / dit) := Nat.lt_ceil.mpr hq
        omega
  · rw [if_neg ht] at hn
    have hn' : Except.ok (ε := ETCError) 0 = Except.ok n := hn
    have heq := Except.ok.inj hn'
    omega

theorem snr_value_golden : snr_value 1000 10 1 = 8000 / (5.1 + Real.sqrt 8000) := by
  rw [snr_value_eq, signal_per_exposure_of_le 1000 10
    (by unfold quantum_efficiency saturation_limit; norm_num)]
  unfold readout_noise dark_noise quantum_efficiency
  norm_num

theorem snr_value_golden_ge_target : ¬ snr_value 1000 10 1 < 7 := by
  rw [snr_value_golden]
  have h1 : Real.sqrt 8000 ≤ 90 := sqrt_le_of_sq _ _ (by norm_num) (by norm_num)
  have h0 : (0 : ℝ) ≤ Real.sqrt 8000 := Real.sqrt_nonneg _
  have hden : (0 : ℝ) < 5.1 + Real.sqrt 8000 := by linarith
  rw [not_lt, le_div_iff₀ hden]
  nlinarith

theorem get_ndit_golden :
    get_ndit (fluxConst 1000) defaultObs "Ks" 7 20 10 = Except.ok 1 := by
  unfold get_ndit
  rw [dif_neg (by norm_num : ¬(10 : ℝ) ≤ 0), if_pos (by norm_num : (0 : ℝ) < 7),
    photons_in_filter_fluxConst 1000 defaultObs "Ks" 20 (by decide)]
  show Except.ok (ndit_loop 1000 7 10 _ 0) = Except.ok 1
  rw [ndit_loop, dif_neg (by push_cast; norm_num : ¬((0 + 1 : ℕ) : ℝ) * 10 ≥ 3 * 3600),
    if_neg snr_value_golden_ge_target]

/-- Witness for C4 at concrete inputs: with stubbed rate 1000 ph/pixel/s,
target SNR 7 and `dit = 10 s`, the search stops at `ndit = 1`, within the
`⌈10800 / 10⌉` iteration budget. -/
theorem get_ndit_iteration_bound_instance :
    (1 : ℕ) ≤ Nat.ceil ((3 * 3600 : ℝ) / 10) :=
  get_ndit_iteration_bound (fluxConst 1000) defaultObs "Ks" 7 20 10 (by norm_num)
    1 get_ndit_golden

end ETC
